import Mathlib

/-!
Shallow embedding of the order-lifecycle subsystem of the USBC-HDMI backend
(src/index.js): the checkout-preference creation endpoint, the order creation
endpoint, the order-details lookup, and the payment webhook handler.

External collaborators (the crypto HMAC primitive, the payment gateway, the
self-invoked order-creation fetch, the document store) are modelled as explicit
parameters of an environment record; the handlers are pure functions from the
environment, the request and the order store to a response, the new store and a
log of outbound calls.
-/

namespace UsbcBackend

/-- An exact fraction with a positive denominator, not necessarily reduced:
the value of a finite JS number.  Fractions are kept unreduced so that all
arithmetic is plain integer arithmetic.  Binary floating-point rounding is not
modelled; the decimal amounts this subsystem manipulates are exact. -/
structure Frac where
  num : Int
  den : Nat
deriving DecidableEq, Repr

/-- The fraction representing an integer. -/
def Frac.ofInt (i : Int) : Frac := { num := i, den := 1 }

/-- Exact addition of fractions. -/
def Frac.add (a b : Frac) : Frac :=
  { num := a.num * (b.den : Int) + b.num * (a.den : Int), den := a.den * b.den }

/-- Exact multiplication of fractions. -/
def Frac.mul (a b : Frac) : Frac :=
  { num := a.num * b.num, den := a.den * b.den }

/-- Comparison of fractions by cross multiplication (denominators are
positive). -/
def Frac.le (a b : Frac) : Bool :=
  decide (a.num * (b.den : Int) ≤ b.num * (a.den : Int))

/-- Negation of a fraction. -/
def Frac.neg (a : Frac) : Frac := { num := -a.num, den := a.den }

/-- JavaScript number restricted to the values this subsystem manipulates:
a finite value, or NaN. -/
inductive JsNumber where
  | nan : JsNumber
  | val : Frac → JsNumber
deriving DecidableEq, Repr

/-- JavaScript addition on numbers: NaN absorbs. -/
def jsAdd : JsNumber → JsNumber → JsNumber
  | .val a, .val b => .val (a.add b)
  | _, _ => .nan

/-- JavaScript multiplication on numbers: NaN absorbs. -/
def jsMul : JsNumber → JsNumber → JsNumber
  | .val a, .val b => .val (a.mul b)
  | _, _ => .nan

/-- JavaScript comparison a <= b: any comparison with NaN is false. -/
def jsLe : JsNumber → JsNumber → Bool
  | .val a, .val b => a.le b
  | _, _ => false

/-- A request-body value that may be a number or a string (the client may send
`unit_price` either way). -/
inductive JsVal where
  | num : Frac → JsVal
  | str : String → JsVal
deriving DecidableEq, Repr

/-- Reads a maximal run of decimal digits: accumulated value, number of digits
read, rest of the input. -/
def readDigits : List Char → Nat → Nat → Nat × Nat × List Char
  | [], acc, n => (acc, n, [])
  | c :: cs, acc, n =>
    if c.isDigit then readDigits cs (10 * acc + (c.toNat - 48)) (n + 1)
    else (acc, n, c :: cs)

/-- Parses a leading decimal literal (optional sign, digits, optional fraction)
from a character list, returning the value and the unconsumed rest; `none` when
no digit is present.  Models the numeric grammar shared by the JS builtins
`parseFloat` and `Number` on plain decimal literals (exponents are not
modelled; no claim depends on them). -/
def prefixDecimal (cs : List Char) : Option (Frac × List Char) :=
  let sgn := match cs with
    | '-' :: r => (true, r)
    | '+' :: r => (false, r)
    | _ => (false, cs)
  let ipart := readDigits sgn.2 0 0
  let fpart := match ipart.2.2 with
    | '.' :: r => readDigits r 0 0
    | _ => (0, 0, ipart.2.2)
  if ipart.2.1 = 0 ∧ fpart.2.1 = 0 then none
  else
    let mag : Frac := { num := ((ipart.1 * 10 ^ fpart.2.1 + fpart.1 : Nat) : Int),
                        den := 10 ^ fpart.2.1 }
    some (if sgn.1 then mag.neg else mag, fpart.2.2)

/-- Whitespace trimming at both ends of a character list (the trim the JS
numeric conversions apply). -/
def trimChars (cs : List Char) : List Char :=
  ((cs.dropWhile Char.isWhitespace).reverse.dropWhile Char.isWhitespace).reverse

/-- Model of the JS builtin `parseFloat` on a string: trim, parse the longest
numeric prefix, NaN when none exists. -/
def strParseFloat (s : String) : JsNumber :=
  match prefixDecimal (trimChars s.toList) with
  | some p => .val p.1
  | none => .nan

/-- Full-string decimal parse: the whole character list must be a decimal
literal. -/
def parseDecimalChars (cs : List Char) : Option Frac :=
  match prefixDecimal cs with
  | some (q, []) => some q
  | _ => none

/-- Model of JS `ToNumber` on a string (as used by the `*` and `+` operators):
empty/whitespace-only strings convert to 0, otherwise the whole trimmed string
must be numeric, else NaN. -/
def strToNumber (s : String) : JsNumber :=
  let t := trimChars s.toList
  if t = [] then .val (Frac.ofInt 0)
  else match parseDecimalChars t with
    | some q => .val q
    | none => .nan

/-- JS `ToNumber` on a request value: numbers pass through, strings convert. -/
def jsToNumber : JsVal → JsNumber
  | .num q => .val q
  | .str s => strToNumber s

/-- Model of `parseFloat(x)` on a request value: a number round-trips through
its string form unchanged, a string is prefix-parsed. -/
def jsParseFloat : JsVal → JsNumber
  | .num q => .val q
  | .str s => strParseFloat s

/-- A line item as supplied in the checkout request body. `title` is `none`
when the field is absent. -/
structure ItemReq where
  title : Option String
  quantity : JsNumber
  unit_price : JsVal
deriving DecidableEq, Repr

/-- Body of POST /create-checkout-session. -/
structure CheckoutBody where
  items : List ItemReq
  payerEmail : String
  shippingAddress : String
deriving DecidableEq, Repr

/-- A normalized item of the gateway preference request (src/index.js lines
224-229). -/
structure PrefItem where
  title : String
  quantity : JsNumber
  unit_price : JsNumber
  currency_id : String
deriving DecidableEq, Repr

/-- The preference-creation request body sent to the gateway (src/index.js
lines 223-242). -/
structure PreferenceBody where
  items : List PrefItem
  payerEmail : String
  success_url : String
  failure_url : String
  pending_url : String
  auto_return : String
  additional_info : String
deriving DecidableEq, Repr

/-- Body of POST /create-order.  `none` fields model absent JSON fields; the
`status` field models a stray extra field a client might send (the handler
never reads it). -/
structure OrderBody where
  paymentId : Option String
  shippingAddress : Option String
  payerEmail : Option String
  items : List ItemReq
  status : Option String
deriving DecidableEq, Repr

/-- A stored Order document (src/index.js lines 290-312).  `id` is the
store-assigned document identifier.  Mongoose's numeric cast of item fields is
not modelled (no claim depends on stored item values). -/
structure Order where
  id : String
  paymentId : String
  shippingAddress : String
  payerEmail : String
  items : List ItemReq
  status : String
deriving DecidableEq, Repr

/-- The `data` sub-object of a webhook notification; `id` is `none` when the
field is absent. -/
structure NotificationData where
  id : Option String
deriving DecidableEq, Repr

/-- A parsed webhook notification body (`req.body`). `none` models an absent
field. -/
structure Notification where
  type : Option String
  data : Option NotificationData
deriving DecidableEq, Repr

/-- Wraps a string in JSON quotes (escaping not modelled; no claim depends on
it). -/
def jsonStr (s : String) : String := "\"" ++ s ++ "\""

/-- Model of `JSON.stringify(req.body)` (src/index.js line 361) for the
notification shape: absent fields are skipped, present fields rendered in
order. -/
def serializeNotif (n : Notification) : String :=
  let tf := match n.type with
    | none => []
    | some t => ["\"type\":" ++ jsonStr t]
  let df := match n.data with
    | none => []
    | some d =>
      let inner := match d.id with
        | none => ""
        | some i => "\"id\":" ++ jsonStr i
      ["\"data\":\x7b" ++ inner ++ "\x7d"]
  "\x7b" ++ String.intercalate "," (tf ++ df) ++ "\x7d"

/-- Outcome of the gateway preference-creation fetch (src/index.js lines
251-266): network rejection, non-ok HTTP response with the gateway message, or
an ok response whose parsed `id` field may be absent. -/
inductive PrefFetch where
  | rejected : PrefFetch
  | httpError : String → PrefFetch
  | resolvedOk : Option String → PrefFetch
deriving DecidableEq, Repr

/-- Outcome of the self-invoked POST /create-order fetch (src/index.js lines
269-280): network rejection, or a resolved response with some HTTP status.
The handler ignores the resolved status entirely. -/
inductive FollowupFetch where
  | rejected : FollowupFetch
  | resolved : Nat → FollowupFetch
deriving DecidableEq, Repr

/-- Outcome of the gateway payment-status fetch (src/index.js lines 380-386):
network rejection, or a resolved response whose parsed `status` field may be
absent. -/
inductive PaymentsFetch where
  | rejected : PaymentsFetch
  | resolved : Option String → PaymentsFetch
deriving DecidableEq, Repr

/-- The external world the handlers call into: the crypto HMAC-SHA256 hex
digest primitive (secret, message), the webhook secret, the gateway
payment-status endpoint, the gateway preference endpoint, the self-invoked
order-creation fetch, and the document id the store assigns to the next
inserted order. -/
structure Env where
  hmacHex : String → String → String
  secret : String
  payments : String → PaymentsFetch
  preferences : PreferenceBody → PrefFetch
  createOrderFetch : OrderBody → FollowupFetch
  freshId : String

/-- The cart total `items.reduce((total, item) => total + item.unit_price *
item.quantity, 0)` (src/index.js line 217); JS `*` applies ToNumber to a
string price. -/
def cartTotal (items : List ItemReq) : JsNumber :=
  items.foldl (fun acc it => jsAdd acc (jsMul (jsToNumber it.unit_price) it.quantity)) (.val (Frac.ofInt 0))

/-- Item normalization of src/index.js lines 224-229: default a falsy title to
"Product", coerce the price with parseFloat, attach the fixed currency. -/
def normalizeItem (it : ItemReq) : PrefItem :=
  { title := match it.title with
      | none => "Product"
      | some t => if t = "" then ("Product") else t
    quantity := it.quantity
    unit_price := jsParseFloat it.unit_price
    currency_id := "ARS" }

/-- The preference body built at src/index.js lines 223-242. -/
def mkPreferenceBody (b : CheckoutBody) : PreferenceBody :=
  { items := b.items.map normalizeItem
    payerEmail := b.payerEmail
    success_url := "https://rossousbchdmi.netlify.app/success"
    failure_url := "https://rossousbchdmi.netlify.app/cancel"
    pending_url := "https://yourapp.com/pending"
    auto_return := "approved"
    additional_info := "\x7b\"shipping_address\":" ++ jsonStr b.shippingAddress ++ "\x7d" }

/-- The body of the self-invoked POST /create-order call (src/index.js lines
274-279). -/
def followupBody (b : CheckoutBody) (id : String) : OrderBody :=
  { paymentId := some id
    shippingAddress := some b.shippingAddress
    payerEmail := some b.payerEmail
    items := b.items
    status := none }

/-- JS falsiness of the parsed `id` field: absent or the empty string. -/
def jsFalsyStr : Option String → Bool
  | none => true
  | some s => s = ""

/-- Result of the checkout endpoint: HTTP status, the returned preference id
(`none` on error), and the logs of outbound gateway calls and outbound
order-creation calls issued during the request. -/
structure CheckoutResult where
  status : Nat
  respId : Option String
  gatewayCalls : List PreferenceBody
  orderCalls : List OrderBody
deriving DecidableEq, Repr

/-- POST /create-checkout-session (src/index.js lines 213-287).  A thrown
error anywhere in the try block (non-positive total, gateway network failure,
non-ok gateway response, missing id, rejection of the awaited follow-up fetch)
reaches the catch and responds 500. -/
def createCheckoutSession (env : Env) (b : CheckoutBody) : CheckoutResult :=
  if jsLe (cartTotal b.items) (.val (Frac.ofInt 0)) then
    { status := 500, respId := none, gatewayCalls := [], orderCalls := [] }
  else
    match env.preferences (mkPreferenceBody b) with
    | .rejected =>
      { status := 500, respId := none, gatewayCalls := [mkPreferenceBody b], orderCalls := [] }
    | .httpError _ =>
      { status := 500, respId := none, gatewayCalls := [mkPreferenceBody b], orderCalls := [] }
    | .resolvedOk idOpt =>
      if jsFalsyStr idOpt then
        { status := 500, respId := none, gatewayCalls := [mkPreferenceBody b], orderCalls := [] }
      else
        match env.createOrderFetch (followupBody b (idOpt.getD "")) with
        | .rejected =>
          { status := 500, respId := none, gatewayCalls := [mkPreferenceBody b],
            orderCalls := [followupBody b (idOpt.getD "")] }
        | .resolved _ =>
          { status := 200, respId := some (idOpt.getD ""), gatewayCalls := [mkPreferenceBody b],
            orderCalls := [followupBody b (idOpt.getD "")] }

/-- POST /create-order (src/index.js lines 338-355).  The handler reads only
paymentId, shippingAddress, payerEmail and items from the body; Mongoose
rejects the save with a ValidationError when a required string field is absent
(or empty, since the required check on strings tests truthiness), the catch
responds 500 and nothing is inserted; otherwise the order is inserted with the
schema default status "pending". -/
def createOrder (env : Env) (b : OrderBody) (store : List Order) : Nat × List Order :=
  match b.paymentId, b.shippingAddress, b.payerEmail with
  | some pid, some addr, some em =>
    if pid = "" ∨ addr = "" ∨ em = "" then (500, store)
    else (201, store ++ [{ id := env.freshId, paymentId := pid, shippingAddress := addr,
                           payerEmail := em, items := b.items, status := "pending" }])
  | _, _, _ => (500, store)

/-- Result of the order-details endpoint: HTTP status, and the projection
`(id, shippingAddress)` returned on success. -/
structure OrderDetailsResult where
  status : Nat
  payload : Option (String × String)
deriving DecidableEq, Repr

/-- GET /order-details/:paymentId (src/index.js lines 316-336): find the first
order with the given paymentId; 404 when none exists, otherwise the
`(id, shippingAddress)` projection. -/
def getOrderDetails (store : List Order) (pid : String) : OrderDetailsResult :=
  match store.find? (fun o => o.paymentId == pid) with
  | none => { status := 404, payload := none }
  | some o => { status := 200, payload := some (o.id, o.shippingAddress) }

/-- The `findOneAndUpdate({ paymentId }, { status: paid })` of src/index.js
lines 390-394: set the status of the first matching order to "paid"; a no-op
when no order matches. -/
def findOneAndUpdatePaid (pid : String) : List Order → List Order
  | [] => []
  | o :: rest =>
    if o.paymentId = pid then { o with status := "paid" } :: rest
    else o :: findOneAndUpdatePaid pid rest

/-- Result of the webhook handler: HTTP status, the order store after the
request, and the log of paymentIds queried against the gateway
payment-status endpoint. -/
structure WebhookResult where
  status : Nat
  store : List Order
  gatewayQueries : List String
deriving DecidableEq, Repr

/-- POST /webhook (src/index.js lines 359-404).  The signature header (`none`
when absent) is compared to the HMAC-SHA256 hex digest of the re-serialized
body; mismatch responds 400 before anything else happens.  Then: non-payment
type acknowledges with 200 untouched; `payment.data.id` is read (a TypeError
when `data` is absent reaches the catch, 500; an absent `id` interpolates as
the string "undefined"); the gateway is queried; only an authoritative status
of "approved" updates the first matching order to paid; acknowledgement is 200
in every non-throwing path. -/
def handlePaymentNotification (env : Env) (n : Notification) (sig : Option String)
    (store : List Order) : WebhookResult :=
  if sig ≠ some (env.hmacHex env.secret (serializeNotif n)) then
    { status := 400, store := store, gatewayQueries := [] }
  else if n.type = some ("payment") then
    match n.data with
    | none => { status := 500, store := store, gatewayQueries := [] }
    | some d =>
      match env.payments (d.id.getD "undefined") with
      | .rejected =>
        { status := 500, store := store, gatewayQueries := [d.id.getD "undefined"] }
      | .resolved st =>
        if st = some ("approved") then
          { status := 200, store := findOneAndUpdatePaid (d.id.getD "undefined") store,
            gatewayQueries := [d.id.getD "undefined"] }
        else
          { status := 200, store := store, gatewayQueries := [d.id.getD "undefined"] }
  else
    { status := 200, store := store, gatewayQueries := [] }

/-- One inbound request to the subsystem. -/
inductive Request where
  | checkout : CheckoutBody → Request
  | order : OrderBody → Request
  | details : String → Request
  | webhook : Notification → Option String → Request

/-- The effect of one request on the order store.  The checkout endpoint never
writes the store directly: its order creation goes through a separate HTTP
request to the order endpoint, which arrives as its own `Request.order`. -/
def applyRequest (env : Env) (store : List Order) : Request → List Order
  | .checkout _ => store
  | .order b => (createOrder env b store).2
  | .details _ => store
  | .webhook n sig => (handlePaymentNotification env n sig store).store

/-! Helper lemmas about the store-update primitive and list indexing. -/

theorem length_findOneAndUpdatePaid (pid : String) (st : List Order) :
    (findOneAndUpdatePaid pid st).length = st.length := by
  induction st with
  | nil => rfl
  | cons o rest ih =>
    unfold findOneAndUpdatePaid
    by_cases h : o.paymentId = pid <;> simp [h, ih]

theorem findOneAndUpdatePaid_getElem? (pid : String) (st : List Order) (i : Nat)
    (o o' : Order) (h : st[i]? = some o)
    (h' : (findOneAndUpdatePaid pid st)[i]? = some o') :
    o' = o ∨ (o.paymentId = pid ∧ o' = { o with status := "paid" }) := by
  induction st generalizing i with
  | nil => simp at h
  | cons x xs ih =>
    unfold findOneAndUpdatePaid at h'
    by_cases hx : x.paymentId = pid
    · rw [if_pos hx] at h'
      cases i with
      | zero =>
        simp only [List.getElem?_cons_zero, Option.some.injEq] at h h'
        subst h
        right
        exact ⟨hx, h'.symm⟩
      | succ n =>
        simp only [List.getElem?_cons_succ] at h h'
        left
        rw [h] at h'
        exact (Option.some.injEq _ _ ▸ h').symm
    · simp only [hx, if_neg, not_false_iff] at h'
      cases i with
      | zero =>
        simp only [List.getElem?_cons_zero, Option.some.injEq] at h h'
        left
        rw [← h, ← h']
      | succ n =>
        simp only [List.getElem?_cons_succ] at h h'
        exact ih n h h'

theorem findOneAndUpdatePaid_idem (pid : String) (st : List Order) :
    findOneAndUpdatePaid pid (findOneAndUpdatePaid pid st) = findOneAndUpdatePaid pid st := by
  induction st with
  | nil => rfl
  | cons o rest ih =>
    unfold findOneAndUpdatePaid
    by_cases h : o.paymentId = pid
    · simp [h, findOneAndUpdatePaid]
    · simp [h, findOneAndUpdatePaid, ih]

theorem findOneAndUpdatePaid_no_match (pid : String) (st : List Order)
    (h : ∀ o ∈ st, o.paymentId ≠ pid) :
    findOneAndUpdatePaid pid st = st := by
  induction st with
  | nil => rfl
  | cons o rest ih =>
    unfold findOneAndUpdatePaid
    have ho : o.paymentId ≠ pid := h o (List.mem_cons_self o rest)
    simp only [ho, if_neg, not_false_iff, List.cons.injEq, true_and]
    exact ih (fun x hx => h x (List.mem_cons_of_mem o hx))

theorem findOneAndUpdatePaid_match (pid : String) (st : List Order) (o : Order)
    (ho : o ∈ st) (h : o.paymentId = pid) :
    ∃ o' ∈ findOneAndUpdatePaid pid st, o'.paymentId = pid ∧ o'.status = "paid" := by
  induction st with
  | nil => simp at ho
  | cons x xs ih =>
    unfold findOneAndUpdatePaid
    by_cases hx : x.paymentId = pid
    · refine ⟨{ x with status := "paid" }, ?_, hx, rfl⟩
      simp [hx]
    · rcases List.mem_cons.mp ho with hxo | hmem
      · exact absurd (hxo ▸ h) hx
      · rcases ih hmem with ⟨o', ho', hp, hs⟩
        exact ⟨o', by simp [hx, ho'], hp, hs⟩

theorem order_set_paid_self (o : Order) (h : o.status = "paid") :
    ({ o with status := "paid" } : Order) = o := by
  cases o
  simp_all

theorem lt_length_of_getElem?Some {α : Type} {l : List α} {i : Nat} {a : α}
    (h : l[i]? = some a) : i < l.length := by
  by_contra hle
  rw [List.getElem?_eq_none (Nat.le_of_not_lt hle)] at h
  cases h

theorem getElem?_append_left {α : Type} (l₁ l₂ : List α) (i : Nat) (h : i < l₁.length) :
    (l₁ ++ l₂)[i]? = l₁[i]? := by
  rw [List.getElem?_append]
  simp [h]

/-- Case analysis of the order-creation handler: it either fails with 500 and
an unchanged store, or succeeds with 201 appending exactly one order whose
status is the schema default "pending". -/
theorem createOrder_cases (env : Env) (b : OrderBody) (store : List Order) :
    createOrder env b store = (500, store) ∨
    ∃ no : Order, no.status = "pending" ∧
      createOrder env b store = (201, store ++ [no]) := by
  unfold createOrder
  cases h1 : b.paymentId with
  | none => cases h2 : b.shippingAddress <;> cases h3 : b.payerEmail <;> exact Or.inl rfl
  | some pid =>
    cases h2 : b.shippingAddress with
    | none => cases h3 : b.payerEmail <;> exact Or.inl rfl
    | some addr =>
      cases h3 : b.payerEmail with
      | none => exact Or.inl rfl
      | some em =>
        dsimp only
        by_cases hif : pid = "" ∨ addr = "" ∨ em = ""
        · rw [if_pos hif]
          exact Or.inl rfl
        · rw [if_neg hif]
          exact Or.inr ⟨_, rfl, rfl⟩

/-- The webhook handler leaves the store untouched, except in the single
branch where the signature matched, the type is "payment", a data object is
present and the authoritative gateway status is "approved", in which case the
new store is exactly the first-match paid update. -/
theorem handlePaymentNotification_store (env : Env) (n : Notification)
    (sig : Option String) (store : List Order) :
    (handlePaymentNotification env n sig store).store = store ∨
    ∃ d : NotificationData,
      sig = some (env.hmacHex env.secret (serializeNotif n)) ∧
      n.type = some ("payment") ∧ n.data = some d ∧
      env.payments (d.id.getD "undefined") = PaymentsFetch.resolved (some ("approved")) ∧
      (handlePaymentNotification env n sig store).store =
        findOneAndUpdatePaid (d.id.getD "undefined") store := by
  by_cases hs : sig = some (env.hmacHex env.secret (serializeNotif n))
  case neg =>
    left
    simp [handlePaymentNotification, hs]
  case pos =>
    by_cases ht : n.type = some ("payment")
    case neg =>
      left
      simp [handlePaymentNotification, hs, ht]
    case pos =>
      cases hd : n.data with
      | none =>
        left
        simp [handlePaymentNotification, hs, ht, hd]
      | some d =>
        cases hp : env.payments (d.id.getD "undefined") with
        | rejected =>
          left
          simp [handlePaymentNotification, hs, ht, hd, hp]
        | resolved st =>
          by_cases hst : st = some ("approved")
          case pos =>
            right
            exact ⟨d, hs, ht, rfl, hst ▸ hp,
              by simp [handlePaymentNotification, hs, ht, hd, hp, hst]⟩
          case neg =>
            left
            simp [handlePaymentNotification, hs, ht, hd, hp, hst]

/-! Concrete data used by the witness instantiations. -/

/-- Concrete environment for witnesses: preference creation succeeds with id
"pref1", the payment-status query reports "approved", the follow-up fetch
resolves with 201. -/
def envW : Env :=
  { hmacHex := fun s b => s ++ "#" ++ b
    secret := "sec"
    payments := fun _ => .resolved (some ("approved"))
    preferences := fun _ => .resolvedOk (some ("pref1"))
    createOrderFetch := fun _ => .resolved 201
    freshId := "doc1" }

/-- Concrete environment whose follow-up order-creation fetch rejects at the
network level while everything else succeeds. -/
def envFollowupDownW : Env :=
  { hmacHex := fun s b => s ++ "#" ++ b
    secret := "sec"
    payments := fun _ => .resolved (some ("approved"))
    preferences := fun _ => .resolvedOk (some ("pref1"))
    createOrderFetch := fun _ => .rejected
    freshId := "doc1" }

/-- Concrete pending order used by witnesses. -/
def oW : Order :=
  { id := "doc0", paymentId := "pay0", shippingAddress := "123 Main St",
    payerEmail := "a@b.com", items := [], status := "pending" }

/-- Concrete notification data used by witnesses. -/
def dW : NotificationData := { id := some ("pay0") }

/-- Concrete payment notification used by witnesses. -/
def nPayW : Notification := { type := some ("payment"), data := some dW }

/-- Concrete non-payment notification used by witnesses. -/
def nOtherW : Notification := { type := some ("subscription"), data := none }

/-- The matching signature value for a notification under `envW`. -/
def sigW (n : Notification) : Option String :=
  some (envW.hmacHex envW.secret (serializeNotif n))

/-- Concrete checkout body with an empty cart. -/
def bodyEmptyW : CheckoutBody :=
  { items := [], payerEmail := "a@b.com", shippingAddress := "123 Main St" }

/-- Concrete checkout body with one positively priced item. -/
def bodyCartW : CheckoutBody :=
  { items := [{ title := some ("Shirt"), quantity := JsNumber.val (Frac.ofInt 2), unit_price := JsVal.num (Frac.ofInt 10) }],
    payerEmail := "a@b.com", shippingAddress := "123 Main St" }

/-- Concrete checkout body whose item carries its price as a string and has no
title. -/
def bodyStrPriceW : CheckoutBody :=
  { items := [{ title := none, quantity := JsNumber.val (Frac.ofInt 2), unit_price := JsVal.str ("10.5") }],
    payerEmail := "a@b.com", shippingAddress := "123 Main St" }

/-- Concrete order-creation body missing its required paymentId. -/
def badOrderBodyW : OrderBody :=
  { paymentId := none, shippingAddress := some ("123 Main St"),
    payerEmail := some ("a@b.com"), items := [], status := none }

/-- Concrete valid order-creation body carrying a stray status field set to
paid. -/
def paidStatusBodyW : OrderBody :=
  { paymentId := some ("pay9"), shippingAddress := some ("123 Main St"),
    payerEmail := some ("a@b.com"), items := [], status := some ("paid") }

/-! The claims. -/

/-- C1: for every inbound webhook request with (parsed, re-serialized) body
and signature header, any signature different from the HMAC-SHA256 hex digest
of the serialized body under the pre-shared secret is answered with HTTP 400
(InvalidSignature), no gateway payment-status query is issued and the order
store is not mutated; hence the notification is processed only when the
signature equals that digest. -/
theorem webhook_rejects_nonmatching_signature (env : Env) (n : Notification)
    (sig : Option String) (store : List Order)
    (h : sig ≠ some (env.hmacHex env.secret (serializeNotif n))) :
    handlePaymentNotification env n sig store =
      { status := 400, store := store, gatewayQueries := [] } := by
  simp [handlePaymentNotification, h]

/-- Witness for C1 at a concrete mutated signature. -/
theorem webhook_rejects_nonmatching_signature_witness :
    handlePaymentNotification envW nPayW (some ("bad")) [oW] =
      { status := 400, store := [oW], gatewayQueries := [] } :=
  webhook_rejects_nonmatching_signature envW nPayW (some ("bad")) [oW] (by decide)

/-- C2: over any store whose statuses are among pending and paid, a single
operation of the subsystem either leaves each existing order unchanged or
moves it from "pending" to "paid", and the latter happens only on a webhook
request whose signature matches, whose type is "payment", whose gateway
payment-status query answered "approved" and whose paymentId matches the
order; no operation ever moves a status backward. -/
theorem order_status_pending_to_paid_only (env : Env) (store : List Order)
    (req : Request)
    (hinv : ∀ o ∈ store, o.status = "pending" ∨ o.status = "paid")
    (i : Nat) (o o' : Order)
    (ho : store[i]? = some o)
    (ho' : (applyRequest env store req)[i]? = some o') :
    o' = o ∨
      (o.status = "pending" ∧ o' = { o with status := "paid" } ∧
        ∃ n : Notification, ∃ sig : Option String, ∃ d : NotificationData,
          req = Request.webhook n sig ∧
          sig = some (env.hmacHex env.secret (serializeNotif n)) ∧
          n.type = some ("payment") ∧ n.data = some d ∧
          env.payments (d.id.getD "undefined") = PaymentsFetch.resolved (some ("approved")) ∧
          o.paymentId = d.id.getD "undefined") := by
  cases req with
  | checkout b =>
    have h2 : (applyRequest env store (Request.checkout b))[i]? = store[i]? := rfl
    rw [h2, ho] at ho'
    exact Or.inl (Option.some.inj ho').symm
  | details pid =>
    have h2 : (applyRequest env store (Request.details pid))[i]? = store[i]? := rfl
    rw [h2, ho] at ho'
    exact Or.inl (Option.some.inj ho').symm
  | order b =>
    have hi : i < store.length := lt_length_of_getElem?Some ho
    rcases createOrder_cases env b store with heq | ⟨no, _, heq⟩
    · have h2 : applyRequest env store (Request.order b) = store := by
        show (createOrder env b store).2 = store
        rw [heq]
      rw [h2, ho] at ho'
      exact Or.inl (Option.some.inj ho').symm
    · have h2 : applyRequest env store (Request.order b) = store ++ [no] := by
        show (createOrder env b store).2 = store ++ [no]
        rw [heq]
      rw [h2, getElem?_append_left store [no] i hi, ho] at ho'
      exact Or.inl (Option.some.inj ho').symm
  | webhook n sig =>
    have h2 : applyRequest env store (Request.webhook n sig) =
        (handlePaymentNotification env n sig store).store := rfl
    rw [h2] at ho'
    rcases handlePaymentNotification_store env n sig store with heq | ⟨d, hsg, ht, hd, hp, heq⟩
    · rw [heq, ho] at ho'
      exact Or.inl (Option.some.inj ho').symm
    · rw [heq] at ho'
      rcases findOneAndUpdatePaid_getElem? (d.id.getD "undefined") store i o o' ho ho' with
        h1 | ⟨hpid, heq2⟩
      · exact Or.inl h1
      · rcases hinv o (List.getElem?_mem ho) with hpend | hpaid
        · exact Or.inr ⟨hpend, heq2, n, sig, d, rfl, hsg, ht, hd, hp, hpid⟩
        · exact Or.inl (heq2.trans (order_set_paid_self o hpaid))

/-- Witness for C2 at a concrete store and request. -/
theorem order_status_pending_to_paid_only_witness :
    oW = oW ∨
      (oW.status = "pending" ∧ oW = { oW with status := "paid" } ∧
        ∃ n : Notification, ∃ sig : Option String, ∃ d : NotificationData,
          Request.details ("x") = Request.webhook n sig ∧
          sig = some (envW.hmacHex envW.secret (serializeNotif n)) ∧
          n.type = some ("payment") ∧ n.data = some d ∧
          envW.payments (d.id.getD "undefined") = PaymentsFetch.resolved (some ("approved")) ∧
          oW.paymentId = d.id.getD "undefined") :=
  order_status_pending_to_paid_only envW [oW] (Request.details ("x")) (by decide)
    0 oW oW rfl rfl

/-- C3: under a matching signature, a payment-type notification with a data
object whose authoritative gateway status is "approved", applying the webhook
handler twice yields the same store as applying it once, and any order
matching the paymentId is paid in the store after one application. -/
theorem webhook_approved_idempotent (env : Env) (n : Notification)
    (sig : Option String) (store : List Order) (d : NotificationData)
    (hsig : sig = some (env.hmacHex env.secret (serializeNotif n)))
    (htype : n.type = some ("payment"))
    (hdata : n.data = some d)
    (happr : env.payments (d.id.getD "undefined") =
      PaymentsFetch.resolved (some ("approved"))) :
    (handlePaymentNotification env n sig
        ((handlePaymentNotification env n sig store).store)).store =
      (handlePaymentNotification env n sig store).store ∧
    (∀ o ∈ store, o.paymentId = d.id.getD "undefined" →
      ∃ o' ∈ (handlePaymentNotification env n sig store).store,
        o'.paymentId = d.id.getD "undefined" ∧ o'.status = "paid") := by
  have hred : ∀ st : List Order,
      (handlePaymentNotification env n sig st).store =
        findOneAndUpdatePaid (d.id.getD "undefined") st := by
    intro st
    simp [handlePaymentNotification, hsig, htype, hdata, happr]
  constructor
  · simp only [hred]
    exact findOneAndUpdatePaid_idem _ _
  · intro o ho hp
    rw [hred]
    exact findOneAndUpdatePaid_match _ store o ho hp

/-- Witness for C3 at a concrete store holding a matching pending order. -/
theorem webhook_approved_idempotent_witness :
    (handlePaymentNotification envW nPayW (sigW nPayW)
        ((handlePaymentNotification envW nPayW (sigW nPayW) [oW]).store)).store =
      (handlePaymentNotification envW nPayW (sigW nPayW) [oW]).store ∧
    (∀ o ∈ [oW], o.paymentId = dW.id.getD "undefined" →
      ∃ o' ∈ (handlePaymentNotification envW nPayW (sigW nPayW) [oW]).store,
        o'.paymentId = dW.id.getD "undefined" ∧ o'.status = "paid") :=
  webhook_approved_idempotent envW nPayW (sigW nPayW) [oW] dW rfl rfl rfl rfl

/-- C4: whenever the cart total (sum of unit_price times quantity, 0 for the
empty list) is less than or equal to zero, the checkout endpoint responds 500
without issuing any outbound gateway call or order-creation call. -/
theorem checkout_nonpositive_total_no_call (env : Env) (b : CheckoutBody)
    (h : jsLe (cartTotal b.items) (JsNumber.val (Frac.ofInt 0)) = true) :
    createCheckoutSession env b =
      { status := 500, respId := none, gatewayCalls := [], orderCalls := [] } := by
  simp [createCheckoutSession, h]

/-- Witness for C4 at the empty item list. -/
theorem checkout_nonpositive_total_no_call_witness :
    createCheckoutSession envW bodyEmptyW =
      { status := 500, respId := none, gatewayCalls := [], orderCalls := [] } :=
  checkout_nonpositive_total_no_call envW bodyEmptyW rfl

/-- Counterexample to C5 as stated: with a gateway that returns the non-empty
preference id "pref1" but a follow-up order-creation fetch that rejects at the
network level, the checkout caller gets a 500 and does not receive the id, so
a failure of the follow-up call is surfaced. -/
theorem checkout_followup_rejection_surfaced :
    (createCheckoutSession envFollowupDownW bodyCartW).status = 500 ∧
    (createCheckoutSession envFollowupDownW bodyCartW).respId = none := by
  constructor <;> rfl

/-- C5 amended: when the awaited follow-up order-creation fetch resolves, its
HTTP status (success or error) is ignored and the caller receives the
preference identifier as a success result; only a network-level rejection of
the follow-up fetch is surfaced (as a 500 without the identifier). -/
theorem checkout_followup_resolved_swallowed (env : Env) (b : CheckoutBody)
    (id : String) (st : Nat)
    (htotal : jsLe (cartTotal b.items) (JsNumber.val (Frac.ofInt 0)) = false)
    (hpref : env.preferences (mkPreferenceBody b) = PrefFetch.resolvedOk (some id))
    (hid : id ≠ "")
    (hfu : env.createOrderFetch (followupBody b id) = FollowupFetch.resolved st) :
    (createCheckoutSession env b).status = 200 ∧
    (createCheckoutSession env b).respId = some id := by
  have hfal : jsFalsyStr (some id) = false := by simp [jsFalsyStr, hid]
  constructor <;> simp [createCheckoutSession, htotal, hpref, hfal, hfu]

/-- Witness for the amended C5 at a concrete cart and follow-up status. -/
theorem checkout_followup_resolved_swallowed_witness :
    (createCheckoutSession envW bodyCartW).status = 200 ∧
    (createCheckoutSession envW bodyCartW).respId = some ("pref1") :=
  checkout_followup_resolved_swallowed envW bodyCartW ("pref1") 201 rfl rfl (by decide) rfl

/-- Counterexample to C6 as stated: a CreateOrder request missing its required
paymentId fails with HTTP 500, which is not a client (4xx) error. -/
theorem create_order_missing_field_not_client_error :
    (createOrder envW badOrderBodyW []).1 = 500 ∧
    ¬(400 ≤ (createOrder envW badOrderBodyW []).1 ∧
      (createOrder envW badOrderBodyW []).1 < 500) :=
  ⟨rfl, by decide⟩

/-- C6 amended: for every CreateOrder request in which a required field
(paymentId, shippingAddress or payerEmail) is absent, the operation fails with
the Mongoose ValidationError surfaced as a server error (HTTP 500), and no
order is inserted. -/
theorem create_order_missing_required_server_error (env : Env) (b : OrderBody)
    (store : List Order)
    (h : b.paymentId = none ∨ b.shippingAddress = none ∨ b.payerEmail = none) :
    createOrder env b store = (500, store) := by
  unfold createOrder
  cases h1 : b.paymentId with
  | none => cases h2 : b.shippingAddress <;> cases h3 : b.payerEmail <;> rfl
  | some pid =>
    cases h2 : b.shippingAddress with
    | none => cases h3 : b.payerEmail <;> rfl
    | some addr =>
      cases h3 : b.payerEmail with
      | none => rfl
      | some em => simp_all

/-- Witness for the amended C6 at a concrete body missing paymentId. -/
theorem create_order_missing_required_server_error_witness :
    createOrder envW badOrderBodyW [] = (500, []) :=
  create_order_missing_required_server_error envW badOrderBodyW [] (Or.inl rfl)

/-- C7: for a signature-verified notification, a declared type other than
"payment" is acknowledged with 200, an unchanged store and no gateway query;
and an approved payment notification whose paymentId matches no stored order
is acknowledged with 200 and an unchanged store. -/
theorem webhook_verified_ack_no_change (env : Env) (n : Notification)
    (sig : Option String) (store : List Order)
    (hsig : sig = some (env.hmacHex env.secret (serializeNotif n))) :
    (n.type ≠ some ("payment") →
      handlePaymentNotification env n sig store =
        { status := 200, store := store, gatewayQueries := [] }) ∧
    (∀ d : NotificationData, n.type = some ("payment") → n.data = some d →
      env.payments (d.id.getD "undefined") = PaymentsFetch.resolved (some ("approved")) →
      (∀ o ∈ store, o.paymentId ≠ d.id.getD "undefined") →
      handlePaymentNotification env n sig store =
        { status := 200, store := store, gatewayQueries := [d.id.getD "undefined"] }) := by
  constructor
  · intro ht
    simp [handlePaymentNotification, hsig, ht]
  · intro d ht hd hp hno
    have hupd := findOneAndUpdatePaid_no_match (d.id.getD "undefined") store hno
    simp [handlePaymentNotification, hsig, ht, hd, hp, hupd]

/-- Witness for C7 at a concrete verified non-payment notification. -/
theorem webhook_verified_ack_no_change_witness :
    handlePaymentNotification envW nOtherW (sigW nOtherW) [oW] =
      { status := 200, store := [oW], gatewayQueries := [] } :=
  (webhook_verified_ack_no_change envW nOtherW (sigW nOtherW) [oW] rfl).1 (by decide)

/-- C8: order-details lookup answers 404 with no payload when no order matches
the paymentId (the handler is total, it never throws unhandled), and answers
200 with the (id, shippingAddress) projection of the found order otherwise. -/
theorem order_details_lookup (store : List Order) (pid : String) :
    ((∀ o ∈ store, o.paymentId ≠ pid) →
      getOrderDetails store pid = { status := 404, payload := none }) ∧
    (∀ o : Order, store.find? (fun x => x.paymentId == pid) = some o →
      getOrderDetails store pid =
        { status := 200, payload := some (o.id, o.shippingAddress) }) := by
  constructor
  · intro h
    have hf : store.find? (fun x => x.paymentId == pid) = none := by
      rw [List.find?_eq_none]
      intro x hx
      simpa using h x hx
    simp [getOrderDetails, hf]
  · intro o ho
    simp [getOrderDetails, ho]

/-- Witness for C8 at a concrete store with no matching order. -/
theorem order_details_lookup_witness :
    getOrderDetails [oW] ("absent") = { status := 404, payload := none } :=
  (order_details_lookup [oW] ("absent")).1 (by decide)

/-- C9: whenever the cart total check passes, exactly one gateway request is
issued, its items are the normalized input items, and normalization gives
every item currency_id "ARS", a unit_price coerced through parseFloat (also
when supplied as a string), and the default title "Product" when the title is
missing. -/
theorem checkout_gateway_request_normalized (env : Env) (b : CheckoutBody)
    (h : jsLe (cartTotal b.items) (JsNumber.val (Frac.ofInt 0)) = false) :
    (createCheckoutSession env b).gatewayCalls = [mkPreferenceBody b] ∧
    (mkPreferenceBody b).items = b.items.map normalizeItem ∧
    ∀ it : ItemReq,
      (normalizeItem it).currency_id = "ARS" ∧
      (normalizeItem it).unit_price = jsParseFloat it.unit_price ∧
      (it.title = none → (normalizeItem it).title = "Product") := by
  refine ⟨?_, rfl, ?_⟩
  · cases hp : env.preferences (mkPreferenceBody b) with
    | rejected => simp [createCheckoutSession, h, hp]
    | httpError m => simp [createCheckoutSession, h, hp]
    | resolvedOk idOpt =>
      by_cases hf : jsFalsyStr idOpt = true
      · simp [createCheckoutSession, h, hp, hf]
      · cases hfu : env.createOrderFetch (followupBody b (idOpt.getD "")) with
        | rejected => simp [createCheckoutSession, h, hp, hf, hfu]
        | resolved st => simp [createCheckoutSession, h, hp, hf, hfu]
  · intro it
    refine ⟨rfl, rfl, fun ht => ?_⟩
    simp [normalizeItem, ht]

/-- Witness for C9 at a concrete cart whose item has a string price and no
title. -/
theorem checkout_gateway_request_normalized_witness :
    (createCheckoutSession envW bodyStrPriceW).gatewayCalls =
      [mkPreferenceBody bodyStrPriceW] :=
  (checkout_gateway_request_normalized envW bodyStrPriceW (by decide)).1

/-- C10: the create-order endpoint reads only paymentId, shippingAddress,
payerEmail and items from the request body: any supplied status field is
ignored, and every successful request appends exactly one order whose status
is the schema default "pending". -/
theorem create_order_status_always_pending (env : Env) (b : OrderBody)
    (store : List Order) :
    (∀ s : Option String,
      createOrder env { b with status := s } store = createOrder env b store) ∧
    ((createOrder env b store).1 = 201 →
      ∃ no : Order, no.status = "pending" ∧
        (createOrder env b store).2 = store ++ [no]) := by
  constructor
  · intro s
    rfl
  · intro h
    rcases createOrder_cases env b store with heq | ⟨no, hpend, heq⟩
    · rw [heq] at h
      simp at h
    · exact ⟨no, hpend, by rw [heq]⟩

/-- Witness for C10 at a concrete successful request carrying a stray paid
status. -/
theorem create_order_status_always_pending_witness :
    ∃ no : Order, no.status = "pending" ∧
      (createOrder envW paidStatusBodyW []).2 = [] ++ [no] :=
  (create_order_status_always_pending envW paidStatusBodyW []).2 rfl

end UsbcBackend
